import Mathlib

/-!
Shallow embedding of the v2 query-cache core of my-react-quest repository:
the `QueryCache` entry state machine (deduplicated fetch, freshness check,
ref-counted eviction timer), the `Query`/`QueryClient` registry, and the
`QueryObserver` projection with its memoized transform.

Timestamps (`Date.now()`) are modelled as `Int` milliseconds passed in
explicitly; JavaScript durations that may be `Infinity` are modelled by
`CacheTime`.  The zustand store is modelled as explicit state passing, and a
store broadcast as a call of the state-projection functions with
`(state, prevState)`.
-/

namespace MyReactQuery

/-- Status of a cache entry, the `status` field of `QueryCacheState`. -/
inductive QueryStatus where
  | pending
  | loading
  | error
  | success
deriving DecidableEq

/-- A JavaScript duration: a finite number of milliseconds or `Infinity`. -/
inductive CacheTime where
  | fin (n : Int)
  | inf
deriving DecidableEq

/-- Mirrors the guard `clearTime > 0 && clearTime !== Infinity` in `unuse`. -/
def CacheTime.isPositiveFinite : CacheTime → Bool
  | .fin n => decide (0 < n)
  | .inf => false

/-- The zustand store state held by a `QueryCache` entry
(`QueryCacheState` in `src/v2/QueryCache.ts`).  The source field
`variables` is spelled `vars` here because `variables` is reserved. -/
structure QueryCacheState (D V E : Type) where
  data : Option D
  error : Option E
  dataUpdatedAt : Int
  errorUpdatedAt : Int
  updatedAt : Int
  status : QueryStatus
  vars : V
deriving DecidableEq

variable {D V E TD : Type}

/-- Store state right after the `QueryCache` constructor ran: the initial
store plus the constructor's `setState({ variables })`. -/
def initialState (v : V) : QueryCacheState D V E :=
  { data := none
    error := none
    dataUpdatedAt := 0
    errorUpdatedAt := 0
    updatedAt := 0
    status := .pending
    vars := v }

/-- `QueryCache.startFetching`. -/
def startFetching (s : QueryCacheState D V E) : QueryCacheState D V E :=
  { s with status := .loading }

/-- `QueryCache.setData`: stores the data, stamps `updatedAt` and
`dataUpdatedAt` with `Date.now()`, resets `errorUpdatedAt` and `error`. -/
def setData (s : QueryCacheState D V E) (d : D) (now : Int) : QueryCacheState D V E :=
  { s with
    data := some d
    status := .success
    updatedAt := now
    dataUpdatedAt := now
    errorUpdatedAt := 0
    error := none }

/-- `QueryCache.setError`: stores the error and stamps `updatedAt` and
`errorUpdatedAt`; it does not touch `data` or `dataUpdatedAt`. -/
def setError (s : QueryCacheState D V E) (e : E) (now : Int) : QueryCacheState D V E :=
  { s with error := some e, status := .error, updatedAt := now, errorUpdatedAt := now }

/-- `QueryCache.isFresh(cacheTime)`: `Date.now() - updatedAt < cacheTime`,
where a comparison against `Infinity` is always true. -/
def isFresh (s : QueryCacheState D V E) (now : Int) : CacheTime → Bool
  | .fin n => decide (now - s.updatedAt < n)
  | .inf => true

/-- What the synchronous prefix of `QueryCache.fetch` decides to do. -/
inductive FetchAction (D E : Type) where
  | attach
  | cachedValue (d : Option D)
  | cachedError (e : Option E)
  | startFetch
deriving DecidableEq

/-- Whether a dispatch outcome invokes the underlying fetcher. -/
def invokesFetcher : FetchAction D E → Bool
  | .startFetch => true
  | _ => false

/-- The synchronous dispatch of `QueryCache.fetch(variables, options)`:
if `status == loading` it attaches to the in-flight fetch; otherwise with
`cacheTime = options?.cacheTime ?? Infinity`, a fresh terminal status is
served from the cache; every other case transitions to `loading` and
invokes the fetcher. -/
def fetchDispatch (s : QueryCacheState D V E) (now : Int) (ct : Option CacheTime) :
    FetchAction D E × QueryCacheState D V E :=
  if s.status = QueryStatus.loading then (.attach, s)
  else if isFresh s now (ct.getD CacheTime.inf) then
    match s.status with
    | .success => (.cachedValue s.data, s)
    | .error => (.cachedError s.error, s)
    | _ => (.startFetch, startFetching s)
  else (.startFetch, startFetching s)

/-- `QueryCache.refetch`: `fetch` with `cacheTime` forced to `0`. -/
def refetchDispatch (s : QueryCacheState D V E) (now : Int) :
    FetchAction D E × QueryCacheState D V E :=
  fetchDispatch s now (some (CacheTime.fin 0))

/-- Outcome observed by one caller of `fetch`/`refetch`: a resolution with
the broadcast `state.data`, or a rejection with the broadcast `state.error`. -/
inductive Outcome (D E : Type) where
  | ok (d : Option D)
  | err (e : Option E)
deriving DecidableEq

/-- Resolve every listed caller with one and the same outcome. -/
def resolveAll (ids : List Nat) (o : Outcome D E) : List (Nat × Outcome D E) :=
  ids.map (fun i => (i, o))

/-- One cache entry together with the callers attached to the in-flight
fetch, the number of fetcher invocations so far, and the outcomes already
delivered to callers. -/
structure EntrySys (D V E : Type) where
  cache : QueryCacheState D V E
  waiters : List Nat
  fetchCount : Nat
  resolved : List (Nat × Outcome D E)
deriving DecidableEq

/-- A fresh entry: nobody attached, fetcher never invoked. -/
def initSys (v : V) : EntrySys D V E :=
  { cache := initialState v, waiters := [], fetchCount := 0, resolved := [] }

/-- One call of `fetch` (or of `refetch`, via `ct = some (.fin 0)`) by caller
`id`: attaching registers a waiter on the store; a fresh cached outcome
resolves the caller immediately; starting a fetch invokes the fetcher once
and the caller awaits its settlement. -/
def callFetch (sys : EntrySys D V E) (id : Nat) (now : Int) (ct : Option CacheTime) :
    EntrySys D V E :=
  match fetchDispatch sys.cache now ct with
  | (.attach, _) => { sys with waiters := sys.waiters ++ [id] }
  | (.cachedValue d, _) => { sys with resolved := sys.resolved ++ [(id, .ok d)] }
  | (.cachedError e, _) => { sys with resolved := sys.resolved ++ [(id, .err e)] }
  | (.startFetch, s) =>
    { sys with cache := s, fetchCount := sys.fetchCount + 1, waiters := sys.waiters ++ [id] }

/-- Arguments of one concurrent `fetch`/`refetch` call. -/
structure CallArgs where
  id : Nat
  now : Int
  ct : Option CacheTime
deriving DecidableEq

/-- Run a sequence of concurrent `fetch`/`refetch` calls. -/
def runCalls (sys : EntrySys D V E) (cs : List CallArgs) : EntrySys D V E :=
  cs.foldl (fun s c => callFetch s c.id c.now c.ct) sys

/-- The in-flight fetch resolves: `setData` runs and its broadcast resolves
every attached caller with the broadcast `state.data`. -/
def settleData (sys : EntrySys D V E) (d : D) (now : Int) : EntrySys D V E :=
  { cache := setData sys.cache d now
    waiters := []
    fetchCount := sys.fetchCount
    resolved := sys.resolved ++ resolveAll sys.waiters (.ok (setData sys.cache d now).data) }

/-- The in-flight fetch rejects: `setError` runs and its broadcast rejects
every attached caller with the broadcast `state.error`. -/
def settleError (sys : EntrySys D V E) (e : E) (now : Int) : EntrySys D V E :=
  { cache := setError sys.cache e now
    waiters := []
    fetchCount := sys.fetchCount
    resolved := sys.resolved ++ resolveAll sys.waiters (.err (setError sys.cache e now).error) }

/-- Cache states reachable through the constructor and the three mutators
`startFetching` / `setData` / `setError`. -/
inductive Reachable : QueryCacheState D V E → Prop where
  | init (v : V) : Reachable (initialState v)
  | stepStart {s : QueryCacheState D V E} : Reachable s → Reachable (startFetching s)
  | stepData {s : QueryCacheState D V E} (d : D) (now : Int) :
      Reachable s → Reachable (setData s d now)
  | stepError {s : QueryCacheState D V E} (e : E) (now : Int) :
      Reachable s → Reachable (setError s e now)

/-- The undefined-data guard in `QueryCache.fetch` throws an `Error` that is
distinct from any fetcher rejection. -/
inductive JsError (E : Type) where
  | userError (e : E)
  | undefinedDataError
deriving DecidableEq

/-- How one `fetch` promise settles for its initiating caller. -/
inductive FetchSettle (D E : Type) where
  | resolved (d : D)
  | rejected (e : E)
deriving DecidableEq

/-- The continuation of `QueryCache.fetch` once the fetcher settled:
`.ok (some d)` stores the data and resolves; `.ok none` (the fetcher
resolved with `undefined`) throws the sentinel `Error`, which the `catch`
stores via `setError` and rethrows; `.error e` is stored and rethrown. -/
def completeFetch (s : QueryCacheState D V (JsError E)) (result : Except E (Option D))
    (now : Int) : QueryCacheState D V (JsError E) × FetchSettle D (JsError E) :=
  match result with
  | .ok (some d) => (setData s d now, .resolved d)
  | .ok none => (setError s JsError.undefinedDataError now, .rejected JsError.undefinedDataError)
  | .error e => (setError s (JsError.userError e) now, .rejected (JsError.userError e))

/-- The ref-counting and eviction-timer fields of a `QueryCache` entry:
`clearTime`, `usedCount`, `clearTimeoutId`, plus whether `onClear` has run
(the entry was removed from its Query's table). -/
structure RefState where
  clearTime : CacheTime
  usedCount : Int
  clearTimeoutId : Option Unit
  evicted : Bool
deriving DecidableEq

/-- A fresh entry's ref-counting fields (`usedCount = 0`, no timer). -/
def initialRef (ct : CacheTime) : RefState :=
  { clearTime := ct, usedCount := 0, clearTimeoutId := none, evicted := false }

/-- `QueryCache.use`: increment `usedCount` and cancel an armed timer. -/
def RefState.use (r : RefState) : RefState :=
  if r.clearTimeoutId ≠ none then
    { r with usedCount := r.usedCount + 1, clearTimeoutId := none }
  else
    { r with usedCount := r.usedCount + 1 }

/-- `QueryCache.unuse`: decrement `usedCount`; arm the eviction timer when
the count is exactly `0` afterwards, `clearTime` is positive and finite, and
no timer is armed yet. -/
def RefState.unuse (r : RefState) : RefState :=
  if r.usedCount - 1 = 0 ∧ r.clearTime.isPositiveFinite = true ∧ r.clearTimeoutId = none then
    { r with usedCount := r.usedCount - 1, clearTimeoutId := some () }
  else
    { r with usedCount := r.usedCount - 1 }

/-- Events an entry's ref-counting state can undergo: `use`, `unuse`, and
the scheduled timeout attempting to fire (`fire` has an effect only if the
timer is still armed; `window.clearTimeout` prevents a cancelled callback). -/
inductive ROp where
  | use
  | unuse
  | fire
deriving DecidableEq

/-- Apply one event. A firing timer runs `onClear`, evicting the entry. -/
def applyOp (r : RefState) : ROp → RefState
  | .use => r.use
  | .unuse => r.unuse
  | .fire => if r.clearTimeoutId = some () then { r with evicted := true } else r

/-- Run a sequence of events. -/
def runOps (r : RefState) (ops : List ROp) : RefState :=
  ops.foldl applyOp r

/-- Constructor props of `Query` (`QueryConstructorProps`): the fetcher is
identified by an opaque id, since only its identity matters here. -/
structure QueryProps where
  name : String
  fetcherId : Nat
  clearTime : Option Int
deriving DecidableEq

/-- `DEFAULT_CLEAR_TIME` in `src/v2/Query.ts`. -/
def defaultClearTime : Int := 300000

/-- A constructed `Query` instance's own fields. -/
structure QueryRec where
  name : String
  fetcherId : Nat
  clearTime : Int
deriving DecidableEq

/-- The `Query` constructor: `clearTime = props.clearTime ?? DEFAULT_CLEAR_TIME`. -/
def mkQuery (p : QueryProps) : QueryRec :=
  { name := p.name, fetcherId := p.fetcherId, clearTime := p.clearTime.getD defaultClearTime }

/-- The `QueryClient` registry: its `queries` map, as an association list. -/
structure QueryClient where
  queries : List (String × QueryRec)
deriving DecidableEq

/-- `Map.set`: replace the binding for the key, or append a new one. -/
def mapSet (m : List (String × QueryRec)) (k : String) (v : QueryRec) :
    List (String × QueryRec) :=
  match m with
  | [] => [(k, v)]
  | (k1, v1) :: rest => if k1 = k then (k, v) :: rest else (k1, v1) :: mapSet rest k v

/-- `QueryClient.findQuery`: `Map.get`. -/
def findQuery (c : QueryClient) (n : String) : Option QueryRec :=
  (c.queries.find? (fun p => decide (p.1 = n))).map (fun p => p.2)

/-- `QueryClient.createQuery`: constructs a new `Query` from the given props
and stores it under `props.name`, returning it. -/
def createQuery (c : QueryClient) (p : QueryProps) : QueryRec × QueryClient :=
  (mkQuery p, { queries := mapSet c.queries p.name (mkQuery p) })

/-- The `QueryObserver` store state (`QueryObserverState`). -/
structure QueryObserverState (D TD E : Type) where
  data : Option TD
  error : Option E
  originalData : Option D
  isSuccess : Bool
  isError : Bool
  isLoading : Bool
  isSettled : Bool
  isPending : Bool
  isFresh : Bool
  updatedAt : Int
  dataUpdatedAt : Int
  errorUpdatedAt : Int
deriving DecidableEq

/-- `QueryObserver.pendingState`, the observer store's initial state. -/
def pendingState : QueryObserverState D TD E :=
  { data := none
    error := none
    originalData := none
    isSuccess := false
    isError := false
    isLoading := false
    isSettled := false
    isPending := false
    isFresh := false
    updatedAt := 0
    dataUpdatedAt := 0
    errorUpdatedAt := 0 }

/-- `QueryObserver.updateState(state, prevState?)`: computes the next
observer state and returns it together with the number of `select` calls it
made.  The transform is applied only when a previous broadcast state is
present and its `data` differs from the new `data`; when the references
match, the previously computed transformed value `this.state.data` is
reused. -/
def updateState [DecidableEq D] (obs : QueryObserverState D TD E) (select : D → TD)
    (cacheTime : CacheTime) (now : Int) (state : QueryCacheState D V E)
    (prevState : Option (QueryCacheState D V E)) : QueryObserverState D TD E × Nat :=
  let td : Option TD × Nat :=
    match prevState with
    | none => (none, 0)
    | some prev =>
      if state.data = prev.data then (obs.data, 0)
      else
        match state.data with
        | none => (none, 0)
        | some d => (some (select d), 1)
  ({ data := td.1
     error := state.error
     originalData := state.data
     isSuccess := td.1.isSome
     isError := state.error.isSome
     isLoading := decide (state.status = QueryStatus.loading)
     isSettled := td.1.isSome || state.error.isSome
     isPending := decide (state.status = QueryStatus.pending)
     isFresh := isFresh state now cacheTime
     updatedAt := state.updatedAt
     dataUpdatedAt := state.dataUpdatedAt
     errorUpdatedAt := state.errorUpdatedAt }, td.2)

/-- The observer state published by `QueryObserver.mount`, which calls
`updateState(this.cache.state)` with no previous broadcast state while the
observer store still holds `pendingState`. -/
def initialObservedState [DecidableEq D] (select : D → TD) (cacheTime : CacheTime)
    (now : Int) (cacheState : QueryCacheState D V E) : QueryObserverState D TD E :=
  (updateState pendingState select cacheTime now cacheState none).1

/-- The observer-owned resources touched by `QueryObserver.destroy`:
the bound entry's ref-counting state, the store subscription, and the
refetch timeout. -/
structure ObserverSys where
  ref : RefState
  subscribed : Bool
  refetchTimeoutId : Option Nat
deriving DecidableEq

/-- `QueryObserver.clearRefetchTimeout`. -/
def clearRefetchTimeout (o : ObserverSys) : ObserverSys :=
  if o.refetchTimeoutId ≠ none then { o with refetchTimeoutId := none } else o

/-- `QueryObserver.destroy`, which runs `unmount`: `cache.unuse()`, then
`unsubscribeStore()` (removing the listener, a no-op when already removed),
then `clearRefetchTimeout()`. -/
def destroy (o : ObserverSys) : ObserverSys :=
  clearRefetchTimeout { o with ref := o.ref.unuse, subscribed := false }

/-! ## Invariants of the entry state machine -/

theorem reachable_invariant {s : QueryCacheState D V E} (h : Reachable s) :
    (s.status = QueryStatus.success →
      s.data.isSome = true ∧ s.error = none ∧ s.errorUpdatedAt = 0) ∧
    (s.status = QueryStatus.error → s.error.isSome = true) ∧
    (s.status = QueryStatus.pending → s.data = none ∧ s.error = none) := by
  induction h with
  | init v => simp [initialState]
  | stepStart h ih => simp [startFetching]
  | stepData d now h ih => simp [setData]
  | stepError e now h ih => simp [setError]

/-- C2: every state reachable through the constructor, `startFetching`,
`setData` and `setError` satisfies: `success` implies data present, error
absent and `errorUpdatedAt = 0` (so the two timestamps are mutually
exclusive on success); `error` implies error present; `pending` implies
neither present — also when an error follows a prior success. -/
theorem c2_terminal_state_invariants (s t u : QueryCacheState D V E)
    (hs : Reachable s) (hs2 : s.status = QueryStatus.success)
    (ht : Reachable t) (ht2 : t.status = QueryStatus.error)
    (hu : Reachable u) (hu2 : u.status = QueryStatus.pending) :
    s.data.isSome = true ∧ s.error = none ∧ s.errorUpdatedAt = 0 ∧
    t.error.isSome = true ∧
    u.data = none ∧ u.error = none := by
  obtain ⟨h1, -, -⟩ := reachable_invariant hs
  obtain ⟨-, h2, -⟩ := reachable_invariant ht
  obtain ⟨-, -, h3⟩ := reachable_invariant hu
  obtain ⟨a, b, c⟩ := h1 hs2
  obtain ⟨d, e⟩ := h3 hu2
  exact ⟨a, b, c, h2 ht2, d, e⟩

/-- Concrete reachable success state: fetched and resolved once. -/
def cacheSuccessW : QueryCacheState Nat Nat Nat :=
  setData (startFetching (initialState 0)) 5 100

/-- Concrete reachable error state: an error following a prior success. -/
def cacheErrorW : QueryCacheState Nat Nat Nat :=
  setError (setData (startFetching (initialState 0)) 5 100) 3 200

/-- Concrete reachable pending state: a fresh entry. -/
def cachePendingW : QueryCacheState Nat Nat Nat := initialState 0

theorem c2_terminal_state_invariants_witness :
    cacheSuccessW.data.isSome = true ∧ cacheSuccessW.error = none ∧
    cacheSuccessW.errorUpdatedAt = 0 ∧
    cacheErrorW.error.isSome = true ∧
    cachePendingW.data = none ∧ cachePendingW.error = none :=
  c2_terminal_state_invariants cacheSuccessW cacheErrorW cachePendingW
    (Reachable.stepData 5 100 (Reachable.stepStart (Reachable.init 0))) rfl
    (Reachable.stepError 3 200
      (Reachable.stepData 5 100 (Reachable.stepStart (Reachable.init 0)))) rfl
    (Reachable.init 0) rfl

/-- C3: on an entry that is not loading, a fresh terminal status is served
from the cache: `fetch` returns the cached data when the status is
`success` and raises the cached error when it is `error`, leaving the state
unchanged and never invoking the fetcher. -/
theorem c3_fresh_terminal_read (s t : QueryCacheState D V E)
    (nowS nowT : Int) (ctS ctT : Option CacheTime)
    (hs : s.status = QueryStatus.success)
    (hfs : isFresh s nowS (ctS.getD CacheTime.inf) = true)
    (ht : t.status = QueryStatus.error)
    (hft : isFresh t nowT (ctT.getD CacheTime.inf) = true) :
    fetchDispatch s nowS ctS = (FetchAction.cachedValue s.data, s) ∧
    invokesFetcher (fetchDispatch s nowS ctS).1 = false ∧
    fetchDispatch t nowT ctT = (FetchAction.cachedError t.error, t) ∧
    invokesFetcher (fetchDispatch t nowT ctT).1 = false := by
  have h1 : fetchDispatch s nowS ctS = (FetchAction.cachedValue s.data, s) := by
    simp [fetchDispatch, hs, hfs]
  have h2 : fetchDispatch t nowT ctT = (FetchAction.cachedError t.error, t) := by
    simp [fetchDispatch, ht, hft]
  refine ⟨h1, ?_, h2, ?_⟩
  · rw [h1]
    rfl
  · rw [h2]
    rfl

theorem c3_fresh_terminal_read_witness :
    fetchDispatch cacheSuccessW 120 none =
      (FetchAction.cachedValue cacheSuccessW.data, cacheSuccessW) ∧
    invokesFetcher (fetchDispatch cacheSuccessW 120 none).1 = false ∧
    fetchDispatch cacheErrorW 210 (some (CacheTime.fin 50)) =
      (FetchAction.cachedError cacheErrorW.error, cacheErrorW) ∧
    invokesFetcher (fetchDispatch cacheErrorW 210 (some (CacheTime.fin 50))).1 = false :=
  c3_fresh_terminal_read cacheSuccessW cacheErrorW 120 210 none (some (CacheTime.fin 50))
    rfl (by decide) rfl (by decide)

/-- C7: when the fetcher resolves with the absent-data sentinel
(`undefined`), the fetch rejects with the sentinel `Error`, the entry moves
to status `error` (never `success`), the sentinel error is stored, and the
absent value is never stored as data. -/
theorem c7_undefined_data_rejected (s : QueryCacheState D V (JsError E)) (now : Int) :
    (completeFetch s (Except.ok (none : Option D)) now).2 =
      FetchSettle.rejected JsError.undefinedDataError ∧
    (completeFetch s (Except.ok (none : Option D)) now).1.status = QueryStatus.error ∧
    ¬((completeFetch s (Except.ok (none : Option D)) now).1.status = QueryStatus.success) ∧
    (completeFetch s (Except.ok (none : Option D)) now).1.error =
      some JsError.undefinedDataError ∧
    (completeFetch s (Except.ok (none : Option D)) now).1.data = s.data := by
  simp [completeFetch, setError]

/-- C10: the observer state published by `mount` (no previous broadcast
state) never applies the transform: its `data` is `undefined` and
`isSuccess` is `false` for every cache snapshot — also for a snapshot in
status `success` with data present — while `originalData` reflects the
cached data and the `select` call count is `0`. -/
theorem c10_initial_state_untransformed [DecidableEq D] (select : D → TD)
    (cacheTime : CacheTime) (now : Int) (cacheState : QueryCacheState D V E) :
    (initialObservedState select cacheTime now cacheState).data = none ∧
    (initialObservedState select cacheTime now cacheState).isSuccess = false ∧
    (initialObservedState select cacheTime now cacheState).originalData = cacheState.data ∧
    (updateState (pendingState : QueryObserverState D TD E)
      select cacheTime now cacheState none).2 = 0 := by
  simp [initialObservedState, updateState]

/-- C8: when a broadcast carries `data` reference-identical to the previous
broadcast's `data`, the transform is not invoked (`select` call count `0`)
and the previously computed transformed value is reused. -/
theorem c8_transform_memoized [DecidableEq D] (obs : QueryObserverState D TD E)
    (select : D → TD) (cacheTime : CacheTime) (now : Int)
    (state prev : QueryCacheState D V E) (h : state.data = prev.data) :
    (updateState obs select cacheTime now state (some prev)).2 = 0 ∧
    (updateState obs select cacheTime now state (some prev)).1.data = obs.data := by
  simp [updateState, h]

/-- Concrete observer state that already holds a transformed value. -/
def obsW : QueryObserverState Nat Nat Nat :=
  { (pendingState : QueryObserverState Nat Nat Nat) with data := some 9, isSuccess := true }

/-- Concrete previous broadcast state with the same `data` as `cacheSuccessW`. -/
def prevW : QueryCacheState Nat Nat Nat :=
  { cacheSuccessW with status := QueryStatus.loading }

theorem c8_transform_memoized_witness :
    (updateState obsW Nat.succ CacheTime.inf 100 cacheSuccessW (some prevW)).2 = 0 ∧
    (updateState obsW Nat.succ CacheTime.inf 100 cacheSuccessW (some prevW)).1.data =
      obsW.data :=
  c8_transform_memoized obsW Nat.succ CacheTime.inf 100 cacheSuccessW prevW rfl

/-! ## Deduplication of concurrent fetches -/

theorem callFetch_loading (sys : EntrySys D V E) (id : Nat) (now : Int)
    (ct : Option CacheTime) (h : sys.cache.status = QueryStatus.loading) :
    callFetch sys id now ct = { sys with waiters := sys.waiters ++ [id] } := by
  simp [callFetch, fetchDispatch, h]

theorem runCalls_loading (cs : List CallArgs) (sys : EntrySys D V E)
    (h : sys.cache.status = QueryStatus.loading) :
    runCalls sys cs = { sys with waiters := sys.waiters ++ cs.map CallArgs.id } := by
  induction cs generalizing sys with
  | nil => simp [runCalls]
  | cons c cs ih =>
    have step : runCalls sys (c :: cs) = runCalls (callFetch sys c.id c.now c.ct) cs := rfl
    rw [step, callFetch_loading sys c.id c.now c.ct h,
      ih { sys with waiters := sys.waiters ++ [c.id] } h]
    simp

theorem fetchDispatch_initial (v : V) (now : Int) (ct : Option CacheTime) :
    fetchDispatch (initialState v : QueryCacheState D V E) now ct =
      (FetchAction.startFetch, startFetching (initialState v)) := by
  simp [fetchDispatch, initialState, startFetching]

theorem callFetch_initial (v : V) (id : Nat) (now : Int) (ct : Option CacheTime) :
    callFetch (initSys v : EntrySys D V E) id now ct =
      { cache := startFetching (initialState v), waiters := [id], fetchCount := 1,
        resolved := [] } := by
  simp [callFetch, initSys, fetchDispatch_initial]

/-- C1: while an entry is loading, every further `fetch`/`refetch` call
attaches to the in-flight fetch without invoking the fetcher or touching
the entry's state, and when the in-flight fetch settles, every attached
caller observes one and the same resolved value (resp. one and the same
rejection error); on a fresh entry the first call is the only fetcher
invocation of the whole sequence. -/
theorem c1_loading_dedup (sys : EntrySys D V E)
    (h : sys.cache.status = QueryStatus.loading)
    (cs : List CallArgs) (d : D) (e : E) (nowS : Int) (v : V) (a : CallArgs) :
    (runCalls sys cs).fetchCount = sys.fetchCount ∧
    (runCalls sys cs).cache = sys.cache ∧
    (runCalls sys cs).waiters = sys.waiters ++ cs.map CallArgs.id ∧
    (settleData (runCalls sys cs) d nowS).resolved =
      sys.resolved ++ resolveAll (sys.waiters ++ cs.map CallArgs.id) (Outcome.ok (some d)) ∧
    (settleError (runCalls sys cs) e nowS).resolved =
      sys.resolved ++ resolveAll (sys.waiters ++ cs.map CallArgs.id) (Outcome.err (some e)) ∧
    (settleData (runCalls sys cs) d nowS).fetchCount = sys.fetchCount ∧
    (callFetch (initSys v : EntrySys D V E) a.id a.now a.ct).fetchCount = 1 ∧
    (callFetch (initSys v : EntrySys D V E) a.id a.now a.ct).cache.status =
      QueryStatus.loading ∧
    (callFetch (initSys v : EntrySys D V E) a.id a.now a.ct).waiters = [a.id] := by
  rw [runCalls_loading cs sys h]
  refine ⟨rfl, rfl, rfl, ?_, ?_, rfl, ?_, ?_, ?_⟩
  · simp [settleData, setData, resolveAll]
  · simp [settleError, setError, resolveAll]
  · simp [callFetch_initial]
  · simp [callFetch_initial, startFetching]
  · simp [callFetch_initial]

/-- Concrete entry with one fetch in flight started by caller 7. -/
def sysW : EntrySys Nat Nat Nat :=
  { cache := startFetching (initialState 0), waiters := [7], fetchCount := 1, resolved := [] }

/-- Two further concurrent calls: one `fetch`, one `refetch`. -/
def csW : List CallArgs :=
  [{ id := 8, now := 5, ct := none }, { id := 9, now := 6, ct := some (CacheTime.fin 0) }]

theorem c1_loading_dedup_witness :
    (runCalls sysW csW).fetchCount = sysW.fetchCount ∧
    (runCalls sysW csW).cache = sysW.cache ∧
    (runCalls sysW csW).waiters = sysW.waiters ++ csW.map CallArgs.id ∧
    (settleData (runCalls sysW csW) 42 500).resolved =
      sysW.resolved ++ resolveAll (sysW.waiters ++ csW.map CallArgs.id) (Outcome.ok (some 42)) ∧
    (settleError (runCalls sysW csW) 3 500).resolved =
      sysW.resolved ++ resolveAll (sysW.waiters ++ csW.map CallArgs.id) (Outcome.err (some 3)) ∧
    (settleData (runCalls sysW csW) 42 500).fetchCount = sysW.fetchCount ∧
    (callFetch (initSys 0 : EntrySys Nat Nat Nat) 1 2 none).fetchCount = 1 ∧
    (callFetch (initSys 0 : EntrySys Nat Nat Nat) 1 2 none).cache.status =
      QueryStatus.loading ∧
    (callFetch (initSys 0 : EntrySys Nat Nat Nat) 1 2 none).waiters = [1] :=
  c1_loading_dedup sysW rfl csW 42 3 500 0 { id := 1, now := 2, ct := none }

/-! ## Reference counting and the eviction timer -/

theorem use_clearTimeoutId (r : RefState) : r.use.clearTimeoutId = none := by
  unfold RefState.use
  split
  · rfl
  · rename_i h
    simpa using h

theorem use_evicted (r : RefState) : r.use.evicted = r.evicted := by
  unfold RefState.use
  split <;> rfl

theorem unuse_usedCount (r : RefState) : r.unuse.usedCount = r.usedCount - 1 := by
  unfold RefState.unuse
  split <;> rfl

theorem unuse_evicted (r : RefState) : r.unuse.evicted = r.evicted := by
  unfold RefState.unuse
  split <;> rfl

theorem runOps_no_unuse (ops : List ROp) (r : RefState)
    (hnone : r.clearTimeoutId = none) (hev : r.evicted = false)
    (hno : ∀ op ∈ ops, op ≠ ROp.unuse) :
    (runOps r ops).clearTimeoutId = none ∧ (runOps r ops).evicted = false := by
  induction ops generalizing r with
  | nil => exact ⟨hnone, hev⟩
  | cons op ops ih =>
    have hop := hno op (List.mem_cons_self op ops)
    have hrest : ∀ o ∈ ops, o ≠ ROp.unuse := fun o ho => hno o (List.mem_cons_of_mem op ho)
    have hstep : (applyOp r op).clearTimeoutId = none ∧ (applyOp r op).evicted = false := by
      cases op with
      | use => exact ⟨use_clearTimeoutId r, (use_evicted r).trans hev⟩
      | unuse => exact absurd rfl hop
      | fire => simp [applyOp, hnone, hev]
    exact ih (applyOp r op) hstep.1 hstep.2 hrest

/-- C4: `unuse` arms the eviction timer exactly when the reference count
reaches 0 and the delay is finite and strictly positive; a delay of 0 or
Infinity disables auto-eviction (no timer, no immediate eviction); `use`
cancels any armed timer, and after that `use` no sequence of further `use`
calls and (cancelled) timer firings ever evicts the entry. -/
theorem c4_eviction_timer (r r0 r1 : RefState) (ops : List ROp)
    (hnone : r.clearTimeoutId = none)
    (h0 : r0.clearTime = CacheTime.fin 0 ∨ r0.clearTime = CacheTime.inf)
    (hev : r1.evicted = false)
    (hno : ∀ op ∈ ops, op ≠ ROp.unuse) :
    (r.unuse.clearTimeoutId ≠ none ↔
      (r.usedCount - 1 = 0 ∧ r.clearTime.isPositiveFinite = true)) ∧
    r0.unuse.clearTimeoutId = r0.clearTimeoutId ∧
    r0.unuse.evicted = r0.evicted ∧
    r1.use.clearTimeoutId = none ∧
    (runOps r1.use ops).evicted = false := by
  refine ⟨?_, ?_, unuse_evicted r0, use_clearTimeoutId r1, ?_⟩
  · unfold RefState.unuse
    by_cases hA : r.usedCount - 1 = 0
    · by_cases hB : r.clearTime.isPositiveFinite = true
      · simp [hA, hB, hnone]
      · simp [hA, hB, hnone]
    · simp [hA, hnone]
  · have hB : r0.clearTime.isPositiveFinite = false := by
      rcases h0 with h | h <;> simp [h, CacheTime.isPositiveFinite]
    unfold RefState.unuse
    simp [hB]
  · exact (runOps_no_unuse ops r1.use (use_clearTimeoutId r1)
      ((use_evicted r1).trans hev) hno).2

/-- Entry held by one observer, finite positive delay, no timer armed. -/
def refW : RefState :=
  { clearTime := CacheTime.fin 5, usedCount := 1, clearTimeoutId := none, evicted := false }

/-- Entry whose delay Infinity opts out of auto-eviction. -/
def refInfW : RefState :=
  { clearTime := CacheTime.inf, usedCount := 1, clearTimeoutId := none, evicted := false }

/-- Unused entry whose eviction timer is armed. -/
def refArmedW : RefState :=
  { clearTime := CacheTime.fin 5, usedCount := 0, clearTimeoutId := some (), evicted := false }

/-- Events after the cancelling `use`: another `use` and the (cancelled)
timer trying to fire. -/
def opsW : List ROp := [ROp.use, ROp.fire]

theorem c4_eviction_timer_witness :
    (refW.unuse.clearTimeoutId ≠ none ↔
      (refW.usedCount - 1 = 0 ∧ refW.clearTime.isPositiveFinite = true)) ∧
    refInfW.unuse.clearTimeoutId = refInfW.clearTimeoutId ∧
    refInfW.unuse.evicted = refInfW.evicted ∧
    refArmedW.use.clearTimeoutId = none ∧
    (runOps refArmedW.use opsW).evicted = false :=
  c4_eviction_timer refW refInfW refArmedW opsW rfl (Or.inr rfl) rfl (by decide)

/-! ## The registry and the unuse guard -/

theorem find?_mapSet (m : List (String × QueryRec)) (k : String) (v : QueryRec) :
    (mapSet m k v).find? (fun p => decide (p.1 = k)) = some (k, v) := by
  induction m with
  | nil => simp [mapSet]
  | cons p rest ih =>
    obtain ⟨k1, v1⟩ := p
    by_cases h : k1 = k
    · simp [mapSet, h]
    · simp [mapSet, h, ih]

/-- Fresh registry and two registrations under the same name with different
fetchers. -/
def clientW : QueryClient := { queries := [] }

/-- First registration for the name "users", fetcher id 0. -/
def propsA : QueryProps := { name := "users", fetcherId := 0, clearTime := none }

/-- Later registration for the name "users", fetcher id 1. -/
def propsB : QueryProps := { name := "users", fetcherId := 1, clearTime := none }

/-- C5 counterexample: registering "users" a second time does not return the
existing `Query` — `createQuery` returns a new instance built from the later
props (fetcher id 1) and replaces the registry mapping. -/
theorem c5_counterexample :
    (createQuery (createQuery clientW propsA).2 propsB).1 ≠ (createQuery clientW propsA).1 ∧
    findQuery (createQuery (createQuery clientW propsA).2 propsB).2 "users" ≠
      some (createQuery clientW propsA).1 := by
  decide

/-- C5 amended: `createQuery` always constructs a new `Query` from the props
it is given and installs it under that name, replacing any existing
mapping — the LAST registration for a name is authoritative. -/
theorem c5_amended_last_registration_wins (c : QueryClient) (p : QueryProps) :
    (createQuery c p).1 = mkQuery p ∧
    findQuery (createQuery c p).2 p.name = some (mkQuery p) := by
  refine ⟨rfl, ?_⟩
  simp [findQuery, createQuery, find?_mapSet]

/-- C6 counterexample: `unuse` on a fresh entry (reference count 0) silently
stores -1 instead of failing fast. -/
theorem c6_counterexample :
    ((initialRef (CacheTime.fin 300000)).unuse).usedCount = -1 ∧
    ((initialRef (CacheTime.fin 300000)).unuse).usedCount < 0 := by
  decide

/-- C6 amended: `unuse` decrements the reference count unconditionally and
never fails: with the count at 0 it stores -1, so the count can go
negative. -/
theorem c6_amended_unguarded_decrement (r : RefState) :
    r.unuse.usedCount = r.usedCount - 1 :=
  unuse_usedCount r

/-! ## Observer destruction -/

theorem clearRefetchTimeout_id (o : ObserverSys) :
    (clearRefetchTimeout o).refetchTimeoutId = none := by
  unfold clearRefetchTimeout
  split
  · rfl
  · rename_i h
    simpa using h

theorem clearRefetchTimeout_ref (o : ObserverSys) :
    (clearRefetchTimeout o).ref = o.ref := by
  unfold clearRefetchTimeout
  split <;> rfl

theorem clearRefetchTimeout_subscribed (o : ObserverSys) :
    (clearRefetchTimeout o).subscribed = o.subscribed := by
  unfold clearRefetchTimeout
  split <;> rfl

theorem destroy_ref (o : ObserverSys) : (destroy o).ref = o.ref.unuse := by
  unfold destroy
  rw [clearRefetchTimeout_ref]

theorem destroy_subscribed (o : ObserverSys) : (destroy o).subscribed = false := by
  unfold destroy
  rw [clearRefetchTimeout_subscribed]

theorem destroy_refetchTimeoutId (o : ObserverSys) : (destroy o).refetchTimeoutId = none := by
  unfold destroy
  exact clearRefetchTimeout_id _

/-- Mounted observer: the bound entry has reference count 1, the observer is
subscribed and holds a refetch timeout. -/
def obsRefW : RefState :=
  { clearTime := CacheTime.fin 1000, usedCount := 1, clearTimeoutId := none, evicted := false }

/-- The mounted observer's resources. -/
def obsSysW : ObserverSys := { ref := obsRefW, subscribed := true, refetchTimeoutId := some 7 }

/-- C9 counterexample: a second `destroy` does not leave the bound entry's
reference count unchanged — it decrements it again, to -1. -/
theorem c9_counterexample :
    (destroy (destroy obsSysW)).ref.usedCount ≠ (destroy obsSysW).ref.usedCount ∧
    (destroy (destroy obsSysW)).ref.usedCount = -1 := by
  decide

/-- C9 amended: one `destroy` performs `unuse` on the bound entry,
unsubscribes and clears the refetch timeout; but `destroy` is NOT
idempotent: a second `destroy` decrements the reference count again, while
the unsubscription and the timeout clearing are no-ops the second time. -/
theorem c9_amended_double_destroy_decrements (o : ObserverSys) :
    (destroy o).ref.usedCount = o.ref.usedCount - 1 ∧
    (destroy o).subscribed = false ∧
    (destroy o).refetchTimeoutId = none ∧
    (destroy (destroy o)).ref.usedCount = o.ref.usedCount - 2 ∧
    (destroy (destroy o)).subscribed = false ∧
    (destroy (destroy o)).refetchTimeoutId = none := by
  have h1 : ∀ x : ObserverSys, (destroy x).ref.usedCount = x.ref.usedCount - 1 := by
    intro x
    rw [destroy_ref, unuse_usedCount]
  refine ⟨h1 o, destroy_subscribed o, destroy_refetchTimeoutId o, ?_,
    destroy_subscribed _, destroy_refetchTimeoutId _⟩
  rw [h1 (destroy o), h1 o]
  omega

end MyReactQuery
